import Mathlib

/-!
# Builtin resource detectors (sdk/resource/builtin.go)

A shallow embedding of the three detectors of `sdk/resource/builtin.go`:
`TelemetrySDK`, `Host` and the `stringDetector` adapter built by
`StringDetector`.

Modelling conventions.

* A Go function with side effects (`func() (string, error)`, `Detect`) is a
  state-passing function over an arbitrary world type `σ`.
* A Go pair `(x, error)` is a product whose second component is
  `Option GoError`; `none` is the nil error. A `*Resource` is
  `Option Resource`; `none` is the nil pointer.
* Error values carry whether their dynamic type is comparable. Values of a
  comparable type are compared structurally: pointer identity of two
  separately allocated but otherwise identical values is not modelled.
-/

namespace OTel

/-! ## Errors (Go standard library: errors, fmt) -/

/-- Go error values. `leaf comparable tag msg` is an error without an `Unwrap`
method (for instance the result of `errors.New`); `tag` tells apart distinct
error values that carry the same message. `wrapError comparable msg err` is an
error whose `Unwrap` method returns `err`, the shape of `*fmt.wrapError`. The
flag `comparable` says whether the dynamic type of the value is comparable in
Go: true for pointers, strings and structs of such, false for a slice, map or
function type, or a struct with such a field. The error values of the model
have no `Is` method of their own. -/
inductive GoError where
  | leaf (comparable : Bool) (tag : Nat) (msg : String)
  | wrapError (comparable : Bool) (msg : String) (err : GoError)
  deriving DecidableEq, Repr

/-- The `Error()` method: the message of an error value. -/
def GoError.Error : GoError → String
  | .leaf _ _ msg => msg
  | .wrapError _ msg _ => msg

/-- Whether the dynamic type of an error value is comparable, what
`reflectlite.TypeOf(err).Comparable()` reports. -/
def GoError.Comparable : GoError → Bool
  | .leaf c _ _ => c
  | .wrapError c _ _ => c

/-- The function `errors.Unwrap`: the wrapped error, or nil. -/
def errors.Unwrap : GoError → Option GoError
  | .leaf _ _ _ => none
  | .wrapError _ _ err => some err

/-- The function `errors.Is` for a non-nil `target`: walks the `Unwrap` chain
of `err` and reports whether some element of it equals `target`; as in Go, the
comparison `err == target` is made only when the type of `target` is
comparable. -/
def errors.Is : GoError → GoError → Bool
  | .leaf c tag msg, target =>
      target.Comparable && decide (GoError.leaf c tag msg = target)
  | .wrapError c msg err, target =>
      (target.Comparable && decide (GoError.wrapError c msg err = target)) ||
        errors.Is err target

/-- The call `fmt.Errorf("%s: %w", s, err)`: a `*fmt.wrapError`, a pointer and
so comparable, whose message is `s`, a colon, a blank and the message of
`err`, and which unwraps to `err`. -/
def fmt.Errorf (s : String) (err : GoError) : GoError :=
  .wrapError true (s ++ ": " ++ err.Error) err

/-! ## Contexts (Go standard library: context) -/

/-- The error `context.Canceled`. -/
def context.Canceled : GoError := .leaf true 0 "context canceled"

/-- The error `context.DeadlineExceeded`. -/
def context.DeadlineExceeded : GoError := .leaf true 1 "context deadline exceeded"

/-- A `context.Context`, reduced to what `ctx.Err()` reports: `none` while the
context is live, `context.Canceled` or `context.DeadlineExceeded` once it is
cancelled or expired. -/
structure Context where
  Err : Option GoError
  deriving DecidableEq, Repr

/-- A live context (`context.Background()`). -/
def context.Background : Context := ⟨none⟩

/-! ## Labels (package label) -/

/-- The type `label.Key`, declared in Go as `type Key string`. -/
structure Key where
  name : String
  deriving DecidableEq, Repr

/-- The type `label.Value`: a tagged union of the primitive kinds. A float64
is kept as its 64-bit pattern. -/
inductive Value where
  | bool (b : Bool)
  | int64 (i : Int)
  | float64 (bits : Nat)
  | string (s : String)
  deriving DecidableEq, Repr

/-- The type `label.KeyValue`. -/
structure KeyValue where
  Key : Key
  Value : Value
  deriving DecidableEq, Repr

/-- The method `Key.String(v)`: the key paired with the string value `v`. -/
def Key.String (k : Key) (v : String) : KeyValue :=
  ⟨k, .string v⟩

/-! ## Resources -/

/-- A `Resource`: an ordered sequence of key/value pairs. -/
structure Resource where
  labels : List KeyValue
  deriving DecidableEq, Repr

/-- Writes `kv` into an ordered list of pairs: an entry with the same key is
overwritten in place, otherwise `kv` is appended. -/
def upsert (kv : KeyValue) : List KeyValue → List KeyValue
  | [] => [kv]
  | x :: xs => if x.Key = kv.Key then kv :: xs else x :: upsert kv xs

/-- Modelled from the spec: `NewWithAttributes` is declared in
sdk/resource/resource.go, which is not among the sources. The specification
(4.2, 3): it "builds a Resource from a literal list, de-duplicating by key
with last-occurrence-wins within that single call", insertion order
preserved. -/
def NewWithAttributes (kvs : List KeyValue) : Resource :=
  ⟨kvs.foldl (fun acc kv => upsert kv acc) []⟩

/-- The number of attributes of a resource. -/
def Resource.Len (r : Resource) : Nat :=
  r.labels.length

/-- Modelled from the spec: resource equality is declared in
sdk/resource/resource.go, which is not among the sources. The specification
(4.2): "two Resources are equal iff they contain the same set of (key, value)
pairs, irrespective of insertion order". -/
def Resource.Equal (a b : Resource) : Bool :=
  a.labels.all (fun kv => decide (kv ∈ b.labels)) &&
    b.labels.all (fun kv => decide (kv ∈ a.labels))

/-! ## Detectors -/

/-- A Go function `func() (string, error)` acting on a world of type `σ`. -/
abbrev StringFunc (σ : Type) : Type :=
  σ → (String × Option GoError) × σ

/-- The result type of `Detect`: `(*Resource, error)` and the new world. -/
abbrev DetectResult (σ : Type) : Type :=
  (Option Resource × Option GoError) × σ

/-- The interface `Detector`: a single method `Detect(ctx)`. -/
structure Detector (σ : Type) where
  Detect : Context → σ → DetectResult σ

/-- The struct `stringDetector`. -/
structure stringDetector (σ : Type) where
  K : Key
  F : StringFunc σ

/-- The method `stringDetector.Detect` (builtin.go, lines 75-81). The context
is not used by the body; `sd.K.name` is the conversion `string(sd.K)`. -/
def stringDetector.Detect {σ : Type} (sd : stringDetector σ) (_ctx : Context)
    (w : σ) : DetectResult σ :=
  match sd.F w with
  | ((value, err), w') =>
    match err with
    | some e => ((none, some (fmt.Errorf sd.K.name e)), w')
    | none => ((some (NewWithAttributes [sd.K.String value]), none), w')

/-- The function `StringDetector` (builtin.go, lines 70-72): the
`stringDetector` for `k` and `f`, seen through the `Detector` interface. -/
def StringDetector {σ : Type} (k : Key) (f : StringFunc σ) : Detector σ :=
  ⟨(stringDetector.mk k f).Detect⟩

/-- The keys of package semconv that builtin.go refers to. The package is not
among the sources, so the keys are a parameter of the detectors. -/
structure Semconv where
  TelemetrySDKNameKey : Key
  TelemetrySDKLanguageKey : Key
  TelemetrySDKVersionKey : Key
  HostNameKey : Key
  deriving DecidableEq, Repr

/-- The names these keys have in the OpenTelemetry semantic conventions. -/
def Semconv.standard : Semconv where
  TelemetrySDKNameKey := ⟨"telemetry.sdk.name"⟩
  TelemetrySDKLanguageKey := ⟨"telemetry.sdk.language"⟩
  TelemetrySDKVersionKey := ⟨"telemetry.sdk.version"⟩
  HostNameKey := ⟨"host.name"⟩

/-- What the builtin detectors take from outside the file: the semconv keys,
the string returned by `opentelemetry.Version()` and the function
`os.Hostname`. -/
structure Env (σ : Type) where
  semconv : Semconv
  Version : String
  Hostname : StringFunc σ

/-- The struct `TelemetrySDK`. -/
structure TelemetrySDK where
  deriving DecidableEq, Repr

/-- The struct `Host`. -/
structure Host where
  deriving DecidableEq, Repr

/-- The method `TelemetrySDK.Detect` (builtin.go, lines 55-61). -/
def TelemetrySDK.Detect {σ : Type} (_ : TelemetrySDK) (env : Env σ)
    (_ctx : Context) (w : σ) : DetectResult σ :=
  ((some (NewWithAttributes
      [ env.semconv.TelemetrySDKNameKey.String "opentelemetry-go",
        env.semconv.TelemetrySDKLanguageKey.String "go",
        env.semconv.TelemetrySDKVersionKey.String env.Version ]), none), w)

/-- The method `Host.Detect` (builtin.go, lines 64-66). -/
def Host.Detect {σ : Type} (_ : Host) (env : Env σ) (ctx : Context) (w : σ) :
    DetectResult σ :=
  (StringDetector env.semconv.HostNameKey env.Hostname).Detect ctx w

/-- The behaviour the specification gives for `Host.Detect`, by cases on the
outcome of the hostname lookup: on `(h, nil)` the single-attribute resource
for the host-name key with a nil error, on a failure `e` a nil resource and an
error that wraps `e` and whose message is the key's name, a colon, a blank and
the message of `e`. -/
def Host.DetectSpec {σ : Type} (env : Env σ) (_ctx : Context) (w : σ) :
    DetectResult σ :=
  match env.Hostname w with
  | ((h, none), w') =>
      ((some ⟨[⟨env.semconv.HostNameKey, .string h⟩]⟩, none), w')
  | ((_, some e), w') =>
      ((none, some (.wrapError true (env.semconv.HostNameKey.name ++ ": " ++ e.Error) e)), w')

/-- Instruments `f` with a call counter: the world is paired with the number
of calls of `f` made so far, and every call adds one to it. -/
def counted {σ : Type} (f : StringFunc σ) : StringFunc (σ × Nat) :=
  fun p => match f p.1 with
    | (r, w') => (r, (w', p.2 + 1))

/-- The call counter of a world instrumented by `counted`. -/
def calls {σ : Type} (p : σ × Nat) : Nat :=
  p.2

/-! ## Sample inputs -/

/-- A lookup that always succeeds with the string `v`. -/
def constOk (v : String) : StringFunc Unit :=
  fun w => ((v, none), w)

/-- A lookup that always fails with the error `e`. -/
def constFail (e : GoError) : StringFunc Unit :=
  fun w => (("", some e), w)

/-- A sample key. -/
def sampleKey : Key := ⟨"K"⟩

/-- A sample error value of a comparable type, such as `*errors.errorString`. -/
def sampleErr : GoError := .leaf true 7 "lookup failed"

/-- A sample error value of a type that is not comparable, such as a slice
type `type errs []string` with an `Error` method. -/
def sliceErr : GoError := .leaf false 8 "lookup failed"

/-- An environment with the standard key names, version "0.13.0" and a
hostname lookup that succeeds with "box". -/
def sampleEnv : Env Unit :=
  ⟨Semconv.standard, "0.13.0", constOk "box"⟩

/-- An environment whose hostname lookup fails with `sampleErr`. -/
def failingEnv : Env Unit :=
  ⟨Semconv.standard, "0.13.0", constFail sampleErr⟩

/-- A cancelled context. -/
def cancelledCtx : Context := ⟨some context.Canceled⟩

/-- An expired context. -/
def expiredCtx : Context := ⟨some context.DeadlineExceeded⟩

/-! ## Auxiliary lemmas -/

theorem NewWithAttributes_singleton (kv : KeyValue) :
    NewWithAttributes [kv] = ⟨[kv]⟩ := rfl

theorem GoError.wrapError_ne_self (c : Bool) (msg : String) (e : GoError) :
    GoError.wrapError c msg e ≠ e := by
  intro h
  have hs := congrArg sizeOf h
  simp at hs

theorem errors.Is_self (e : GoError) (he : e.Comparable = true) :
    errors.Is e e = true := by
  cases e <;> simp_all [errors.Is, GoError.Comparable]

theorem errors.Is_Errorf (s : String) (e : GoError) (he : e.Comparable = true) :
    errors.Is (fmt.Errorf s e) e = true := by
  simp [fmt.Errorf, errors.Is, errors.Is_self e he]

theorem counted_calls {σ : Type} (f : StringFunc σ) (x : σ × Nat) :
    calls (counted f x).2 = calls x + 1 := rfl

theorem Resource.Equal_self (r : Resource) : r.Equal r = true := by
  simp [Resource.Equal]

theorem stringDetector_Detect_ok {σ : Type} (k : Key) (f : StringFunc σ)
    (ctx : Context) (w w' : σ) (v : String) (hf : f w = ((v, none), w')) :
    (StringDetector k f).Detect ctx w =
      ((some (NewWithAttributes [k.String v]), none), w') := by
  simp [StringDetector, stringDetector.Detect, hf]

theorem stringDetector_Detect_err {σ : Type} (k : Key) (f : StringFunc σ)
    (ctx : Context) (w w' : σ) (v : String) (e : GoError)
    (hf : f w = ((v, some e), w')) :
    (StringDetector k f).Detect ctx w =
      ((none, some (fmt.Errorf k.name e)), w') := by
  simp [StringDetector, stringDetector.Detect, hf]

/-! ## StringDetector -/

/-- C1: for every key `k` and every function `f` that returns `(s, nil)`,
`StringDetector(k, f).Detect(ctx)` returns a nil error together with the
resource `NewWithAttributes(k.String(s))`, which holds the single string
attribute `k -> s`. -/
theorem StringDetector_Detect_success {σ : Type} (k : Key) (f : StringFunc σ)
    (ctx : Context) (w w' : σ) (s : String) (hf : f w = ((s, none), w')) :
    (StringDetector k f).Detect ctx w =
        ((some (NewWithAttributes [k.String s]), none), w') ∧
      (NewWithAttributes [k.String s]).labels = [⟨k, Value.string s⟩] :=
  ⟨stringDetector_Detect_ok k f ctx w w' s hf, rfl⟩

theorem StringDetector_Detect_success_witness :
    constOk "example" () = (("example", none), ()) ∧
      (StringDetector sampleKey (constOk "example")).Detect context.Background () =
        ((some (NewWithAttributes [sampleKey.String "example"]), none), ()) ∧
      (NewWithAttributes [sampleKey.String "example"]).labels =
        [⟨sampleKey, Value.string "example"⟩] :=
  ⟨rfl, StringDetector_Detect_success sampleKey (constOk "example")
    context.Background () () "example" rfl⟩

/-- C2: `StringDetector(k, f).Detect(ctx)` returns a non-nil error exactly
when `f` does; with an error the resource is nil and without an error the
resource is not nil, so it returns never both and never neither. -/
theorem StringDetector_Detect_error_iff {σ : Type} (k : Key) (f : StringFunc σ)
    (ctx : Context) (w : σ) :
    (((StringDetector k f).Detect ctx w).1.2 ≠ none ↔ (f w).1.2 ≠ none) ∧
      (((StringDetector k f).Detect ctx w).1.2 ≠ none →
        ((StringDetector k f).Detect ctx w).1.1 = none) ∧
      (((StringDetector k f).Detect ctx w).1.2 = none →
        ((StringDetector k f).Detect ctx w).1.1 ≠ none) := by
  rcases hf : f w with ⟨⟨v, err⟩, w'⟩
  cases err with
  | none => simp [stringDetector_Detect_ok k f ctx w w' v hf]
  | some e => simp [stringDetector_Detect_err k f ctx w w' v e hf]

/-- C3, as stated, fails: when `f` fails with an error whose type is not
comparable, such as a slice type, `Detect` returns the wrapping error, which
unwraps to `e`, and yet `errors.Is(err, e)` is false. -/
theorem StringDetector_Detect_failure_not_Is :
    constFail sliceErr () = (("", some sliceErr), ()) ∧
      (StringDetector sampleKey (constFail sliceErr)).Detect context.Background () =
        ((none, some (fmt.Errorf sampleKey.name sliceErr)), ()) ∧
      errors.Unwrap (fmt.Errorf sampleKey.name sliceErr) = some sliceErr ∧
      errors.Is (fmt.Errorf sampleKey.name sliceErr) sliceErr = false :=
  ⟨rfl, rfl, rfl, rfl⟩

/-- C3, amended: when `f` fails with the error `e`, the error returned by
`StringDetector(k, f).Detect` is a new error distinct from `e`, its message is
the key's name followed by a colon, a blank and the message of `e`, and
unwrapping it yields exactly `e`; the resource is nil; and if the type of `e`
is comparable, `errors.Is(err, e)` holds. -/
theorem StringDetector_Detect_failure {σ : Type} (k : Key) (f : StringFunc σ)
    (ctx : Context) (w w' : σ) (s : String) (e : GoError)
    (hf : f w = ((s, some e), w')) :
    ∃ err : GoError,
      (StringDetector k f).Detect ctx w = ((none, some err), w') ∧
        err ≠ e ∧
        err.Error = k.name ++ ": " ++ e.Error ∧
        errors.Unwrap err = some e ∧
        (e.Comparable = true → errors.Is err e = true) :=
  ⟨fmt.Errorf k.name e, stringDetector_Detect_err k f ctx w w' s e hf,
    GoError.wrapError_ne_self _ _ e, rfl, rfl, errors.Is_Errorf k.name e⟩

theorem StringDetector_Detect_failure_witness :
    constFail sampleErr () = (("", some sampleErr), ()) ∧
      sampleErr.Comparable = true ∧
      ∃ err : GoError,
        (StringDetector sampleKey (constFail sampleErr)).Detect context.Background () =
            ((none, some err), ()) ∧
          err ≠ sampleErr ∧
          err.Error = sampleKey.name ++ ": " ++ sampleErr.Error ∧
          errors.Unwrap err = some sampleErr ∧
          errors.Is err sampleErr = true :=
  ⟨rfl, rfl,
    match StringDetector_Detect_failure sampleKey (constFail sampleErr)
        context.Background () () "" sampleErr rfl with
    | ⟨err, h1, h2, h3, h4, h5⟩ => ⟨err, h1, h2, h3, h4, h5 rfl⟩⟩

/-! ## TelemetrySDK -/

/-- C4: for every context, cancelled or expired ones included,
`TelemetrySDK.Detect(ctx)` returns a nil error and the resource built from the
three string attributes SDK name = "opentelemetry-go", SDK language = "go" and
SDK version = `Version()`; when the three keys are distinct the resource has
exactly 3 attributes; and any two calls return equal resources. -/
theorem TelemetrySDK_Detect_fixed {σ : Type} (sdk : TelemetrySDK) (env : Env σ)
    (ctx : Context) (w : σ)
    (hnl : env.semconv.TelemetrySDKNameKey ≠ env.semconv.TelemetrySDKLanguageKey)
    (hnv : env.semconv.TelemetrySDKNameKey ≠ env.semconv.TelemetrySDKVersionKey)
    (hlv : env.semconv.TelemetrySDKLanguageKey ≠ env.semconv.TelemetrySDKVersionKey) :
    ∃ r : Resource,
      sdk.Detect env ctx w = ((some r, none), w) ∧
        r = NewWithAttributes
          [ env.semconv.TelemetrySDKNameKey.String "opentelemetry-go",
            env.semconv.TelemetrySDKLanguageKey.String "go",
            env.semconv.TelemetrySDKVersionKey.String env.Version ] ∧
        r.labels =
          [ ⟨env.semconv.TelemetrySDKNameKey, Value.string "opentelemetry-go"⟩,
            ⟨env.semconv.TelemetrySDKLanguageKey, Value.string "go"⟩,
            ⟨env.semconv.TelemetrySDKVersionKey, Value.string env.Version⟩ ] ∧
        r.Len = 3 ∧
        ∀ (ctx2 : Context) (w2 : σ),
          sdk.Detect env ctx2 w2 = ((some r, none), w2) ∧ r.Equal r = true := by
  refine ⟨_, rfl, rfl, ?_, ?_, fun _ _ => ⟨rfl, Resource.Equal_self _⟩⟩
  · simp [NewWithAttributes, upsert, Key.String, hnl, hnv, hlv]
  · simp [NewWithAttributes, upsert, Key.String, hnl, hnv, hlv, Resource.Len]

theorem TelemetrySDK_Detect_fixed_witness :
    sampleEnv.semconv.TelemetrySDKNameKey ≠ sampleEnv.semconv.TelemetrySDKLanguageKey ∧
      sampleEnv.semconv.TelemetrySDKNameKey ≠ sampleEnv.semconv.TelemetrySDKVersionKey ∧
      sampleEnv.semconv.TelemetrySDKLanguageKey ≠ sampleEnv.semconv.TelemetrySDKVersionKey ∧
      ∃ r : Resource,
        TelemetrySDK.mk.Detect sampleEnv cancelledCtx () = ((some r, none), ()) ∧
          r = NewWithAttributes
            [ sampleEnv.semconv.TelemetrySDKNameKey.String "opentelemetry-go",
              sampleEnv.semconv.TelemetrySDKLanguageKey.String "go",
              sampleEnv.semconv.TelemetrySDKVersionKey.String sampleEnv.Version ] ∧
          r.labels =
            [ ⟨sampleEnv.semconv.TelemetrySDKNameKey, Value.string "opentelemetry-go"⟩,
              ⟨sampleEnv.semconv.TelemetrySDKLanguageKey, Value.string "go"⟩,
              ⟨sampleEnv.semconv.TelemetrySDKVersionKey, Value.string sampleEnv.Version⟩ ] ∧
          r.Len = 3 ∧
          ∀ (ctx2 : Context) (w2 : Unit),
            TelemetrySDK.mk.Detect sampleEnv ctx2 w2 = ((some r, none), w2) ∧
              r.Equal r = true :=
  ⟨by decide, by decide, by decide,
    TelemetrySDK_Detect_fixed TelemetrySDK.mk sampleEnv cancelledCtx ()
      (by decide) (by decide) (by decide)⟩

/-! ## Host -/

/-- C5: for every context and every outcome of the hostname lookup,
`Host.Detect(ctx)` returns exactly what
`StringDetector(HostNameKey, hostnameLookup).Detect(ctx)` returns, and that is
the behaviour `Host.DetectSpec`: the single-attribute resource for the
host-name key with a nil error when the lookup yields `(h, nil)`, a nil
resource and an error wrapping `e` under the key's name when it fails. -/
theorem Host_Detect_refines {σ : Type} (host : Host) (env : Env σ)
    (ctx : Context) (w : σ) :
    host.Detect env ctx w =
        (StringDetector env.semconv.HostNameKey env.Hostname).Detect ctx w ∧
      host.Detect env ctx w = Host.DetectSpec env ctx w := by
  refine ⟨rfl, ?_⟩
  rcases hf : env.Hostname w with ⟨⟨v, err⟩, w'⟩
  cases err with
  | none =>
    simp [Host.Detect, Host.DetectSpec, hf,
      stringDetector_Detect_ok env.semconv.HostNameKey env.Hostname ctx w w' v hf,
      NewWithAttributes_singleton, Key.String]
  | some e =>
    simp [Host.Detect, Host.DetectSpec, hf,
      stringDetector_Detect_err env.semconv.HostNameKey env.Hostname ctx w w' v e hf,
      fmt.Errorf]

/-! ## Context cancellation -/

/-- C6, as stated, fails: with a cancelled context and a function that
succeeds, `StringDetector(k, f).Detect` and `Host.Detect` return the resource
and a nil error, not a cancellation error. -/
theorem cancellation_not_observed :
    cancelledCtx.Err ≠ none ∧
      (StringDetector sampleKey (constOk "example")).Detect cancelledCtx () =
        ((some ⟨[⟨sampleKey, Value.string "example"⟩]⟩, none), ()) ∧
      Host.mk.Detect sampleEnv cancelledCtx () =
        ((some ⟨[⟨⟨"host.name"⟩, Value.string "box"⟩]⟩, none), ()) :=
  ⟨by decide, rfl, rfl⟩

/-- C6, amended: the detectors of this file do not look at the context. With a
cancelled or expired context `StringDetector(k, f).Detect` and `Host.Detect`
still call the wrapped function and return its outcome: the single-attribute
resource with a nil error when it succeeds, a nil resource and the error
wrapped under the key's name when it fails. -/
theorem Detect_with_cancelled_context {σ : Type} (k : Key) (f : StringFunc σ)
    (host : Host) (env : Env σ) (ctx : Context) (w : σ) (_hc : ctx.Err ≠ none) :
    (StringDetector k f).Detect ctx w =
        (match f w with
          | ((v, none), w') => ((some (NewWithAttributes [k.String v]), none), w')
          | ((_, some e), w') => ((none, some (fmt.Errorf k.name e)), w')) ∧
      host.Detect env ctx w =
        (match env.Hostname w with
          | ((v, none), w') =>
              ((some (NewWithAttributes [env.semconv.HostNameKey.String v]), none), w')
          | ((_, some e), w') =>
              ((none, some (fmt.Errorf env.semconv.HostNameKey.name e)), w')) := by
  have key : ∀ (k : Key) (f : StringFunc σ),
      (StringDetector k f).Detect ctx w =
        (match f w with
          | ((v, none), w') => ((some (NewWithAttributes [k.String v]), none), w')
          | ((_, some e), w') => ((none, some (fmt.Errorf k.name e)), w')) := by
    intro k f
    rcases hf : f w with ⟨⟨v, err⟩, w'⟩
    cases err with
    | none => simp [stringDetector_Detect_ok k f ctx w w' v hf]
    | some e => simp [stringDetector_Detect_err k f ctx w w' v e hf]
  exact ⟨key k f, key env.semconv.HostNameKey env.Hostname⟩

theorem Detect_with_cancelled_context_witness :
    expiredCtx.Err ≠ none ∧
      (StringDetector sampleKey (constOk "example")).Detect expiredCtx () =
        (match constOk "example" () with
          | ((v, none), w') => ((some (NewWithAttributes [sampleKey.String v]), none), w')
          | ((_, some e), w') => ((none, some (fmt.Errorf sampleKey.name e)), w')) ∧
      Host.mk.Detect failingEnv expiredCtx () =
        (match failingEnv.Hostname () with
          | ((v, none), w') =>
              ((some (NewWithAttributes [failingEnv.semconv.HostNameKey.String v]), none), w')
          | ((_, some e), w') =>
              ((none, some (fmt.Errorf failingEnv.semconv.HostNameKey.name e)), w')) :=
  ⟨by decide, Detect_with_cancelled_context sampleKey (constOk "example") Host.mk
    failingEnv expiredCtx () (by decide)⟩

/-! ## Calls of the wrapped function -/

/-- C7: each call of `StringDetector(k, f).Detect(ctx)` invokes `f` exactly
once, whether `f` succeeds or fails: the world after `Detect` is the world
after one call of `f`, so a counter `c` that every call of `f` increases by 1
is increased by exactly 1. -/
theorem StringDetector_Detect_calls_once {σ : Type} (k : Key) (f : StringFunc σ)
    (ctx : Context) (w : σ) (c : σ → Nat) (hc : ∀ x : σ, c (f x).2 = c x + 1) :
    ((StringDetector k f).Detect ctx w).2 = (f w).2 ∧
      c ((StringDetector k f).Detect ctx w).2 = c w + 1 := by
  have hw : ((StringDetector k f).Detect ctx w).2 = (f w).2 := by
    rcases hf : f w with ⟨⟨v, err⟩, w'⟩
    cases err with
    | none => simp [stringDetector_Detect_ok k f ctx w w' v hf]
    | some e => simp [stringDetector_Detect_err k f ctx w w' v e hf]
  exact ⟨hw, by rw [hw, hc]⟩

theorem StringDetector_Detect_calls_once_witness :
    (∀ x : Unit × Nat, calls (counted (constFail sampleErr) x).2 = calls x + 1) ∧
      ((StringDetector sampleKey (counted (constFail sampleErr))).Detect
          context.Background ((), 4)).2 = (counted (constFail sampleErr) ((), 4)).2 ∧
      calls ((StringDetector sampleKey (counted (constFail sampleErr))).Detect
          context.Background ((), 4)).2 = calls (((), 4) : Unit × Nat) + 1 :=
  ⟨counted_calls (constFail sampleErr),
    StringDetector_Detect_calls_once sampleKey (counted (constFail sampleErr))
      context.Background ((), 4) calls (counted_calls (constFail sampleErr))⟩

/-! ## Independence of the context -/

/-- C8: the result of `StringDetector(k, f).Detect` does not depend on the
context: for any two contexts, cancelled or not, and any two functions with
the same outcome, the two calls return the same resource, the same error and
the same world; the outcome is a function of `k` and the result of `f`. -/
theorem StringDetector_Detect_context_independent {σ : Type} (k : Key)
    (f1 f2 : StringFunc σ) (ctx1 ctx2 : Context) (w1 w2 : σ)
    (hf : f1 w1 = f2 w2) :
    (StringDetector k f1).Detect ctx1 w1 = (StringDetector k f2).Detect ctx2 w2 := by
  simp [StringDetector, stringDetector.Detect, hf]

theorem StringDetector_Detect_context_independent_witness :
    constOk "example" () = constOk "example" () ∧
      (StringDetector sampleKey (constOk "example")).Detect context.Background () =
        (StringDetector sampleKey (constOk "example")).Detect cancelledCtx () :=
  ⟨rfl, StringDetector_Detect_context_independent sampleKey (constOk "example")
    (constOk "example") context.Background cancelledCtx () () rfl⟩

/-! ## Empty strings -/

/-- C9: an empty detected string is not a failure: if `f` returns `("", nil)`,
`StringDetector(k, f).Detect` returns a nil error and the resource
`NewWithAttributes(k.String(""))`, which holds the attribute `k -> ""`; and
for every string `v` that `f` may return, the error of `Detect` is nil exactly
when the error of `f` is nil. -/
theorem StringDetector_Detect_empty_string {σ : Type} (k : Key) (f : StringFunc σ)
    (ctx : Context) (w w' : σ) (hf : f w = (("", none), w')) :
    (StringDetector k f).Detect ctx w =
        ((some (NewWithAttributes [k.String ""]), none), w') ∧
      (NewWithAttributes [k.String ""]).labels = [⟨k, Value.string ""⟩] ∧
      ∀ (g : StringFunc σ) (v : String) (err : Option GoError) (x x' : σ),
        g x = ((v, err), x') →
          (((StringDetector k g).Detect ctx x).1.2 = none ↔ err = none) := by
  refine ⟨stringDetector_Detect_ok k f ctx w w' "" hf, rfl, ?_⟩
  intro g v err x x' hg
  cases err with
  | none => simp [stringDetector_Detect_ok k g ctx x x' v hg]
  | some e => simp [stringDetector_Detect_err k g ctx x x' v e hg]

theorem StringDetector_Detect_empty_string_witness :
    constOk "" () = (("", none), ()) ∧
      (StringDetector sampleKey (constOk "")).Detect context.Background () =
        ((some (NewWithAttributes [sampleKey.String ""]), none), ()) ∧
      (NewWithAttributes [sampleKey.String ""]).labels =
        [⟨sampleKey, Value.string ""⟩] ∧
      ∀ (g : StringFunc Unit) (v : String) (err : Option GoError) (x x' : Unit),
        g x = ((v, err), x') →
          (((StringDetector sampleKey g).Detect context.Background x).1.2 = none ↔
            err = none) :=
  ⟨rfl, StringDetector_Detect_empty_string sampleKey (constOk "")
    context.Background () () rfl⟩

end OTel
